import Mathlib

/-!
Verification of the pdf-info-scraper artifact-extraction / PII-classification
pipeline against its design document.

The Python sources under scrutiny are shallowly embedded below:

* `parse_pdf_date`   (helpers.py, the Date Parser),
* the PII pattern matcher `extract_pii` (helpers.py / pii_extraction.py) on top of
  a small executable model of the Python `re` engine (backtracking, leftmost,
  alternation preference, greedy quantifiers, `re.findall` group semantics),
* the four artifact classifiers (helpers.py),
* the image codec adapter `_extract_image_data_from_pdf_image` (helpers.py),
* the finding aggregator `process_pdf` (helpers.py) and the batch
  orchestration of main.py.

External collaborators (pdfplumber page/character/rectangle/image decoding,
PIL codecs, the OCR engine) are modelled as data carried by the page
structures or as decoder parameters, mirroring the design document, which
places them out of scope.  Floating point colour/geometry values are modelled
as rationals.
-/

namespace PdfScraper

/-- Decidable equality of `Except` values with decidable components (used
to settle concrete runs of the fallible operations by evaluation). -/
instance {ε α : Type} [DecidableEq ε] [DecidableEq α] : DecidableEq (Except ε α) := fun a b =>
  match a, b with
  | .error e, .error f =>
    match decEq e f with
    | isTrue h => isTrue (h ▸ rfl)
    | isFalse h => isFalse fun hc => h (Except.noConfusion hc id)
  | .error _, .ok _ => isFalse fun hc => Except.noConfusion hc
  | .ok _, .error _ => isFalse fun hc => Except.noConfusion hc
  | .ok x, .ok y =>
    match decEq x y with
    | isTrue h => isTrue (h ▸ rfl)
    | isFalse h => isFalse fun hc => h (Except.noConfusion hc id)

/-- A timezone-aware timestamp as produced by the source date parser:
calendar and clock fields plus a fixed utc offset in minutes
(model of the Python `datetime` built in helpers.parse_pdf_date). -/
structure PDateTime where
  year : Nat
  month : Nat
  day : Nat
  hour : Nat
  minute : Nat
  second : Nat
  tzMinutes : Int
  deriving DecidableEq, Repr

/-- Failures of the date parser: the regular-expression mismatch
(`ValueError: Invalid PDF date format: ...` in the source, the
`InvalidDateFormatError` of the design document, carrying the offending
string) and a component error raised by the `datetime` / `timezone`
constructors (month/day/offset out of range). -/
inductive DateError where
  | invalidFormat (s : String)
  | badComponent
  deriving DecidableEq, Repr

/-- Model of `pdf_date[2:]` after the `startswith("D:")` test in the source
(written on the character list to stay kernel-executable). -/
def stripDPrefix (s : String) : String :=
  match s.data with
  | 'D' :: ':' :: rest => String.mk rest
  | _ => s

/-- The mandatory `(?P<year>\d{4})` group: four leading digits, or failure. -/
def fourDigitYear : List Char → Option (Nat × List Char)
  | a :: b :: c :: d :: rest =>
    if a.isDigit && b.isDigit && c.isDigit && d.isDigit then
      some ((((a.toNat - 48) * 10 + (b.toNat - 48)) * 10 + (c.toNat - 48)) * 10 +
        (d.toNat - 48), rest)
    else none
  | _ => none

/-- An optional `(\d{2})?` group; a missing group defaults to `00`
(`match.groupdict(default=0x27 00 0x27)` followed by `int` in the source). -/
def optTwoDigits (cs : List Char) : Nat × List Char :=
  match cs with
  | a :: b :: rest =>
    if a.isDigit && b.isDigit then ((a.toNat - 48) * 10 + (b.toNat - 48), rest)
    else (0, cs)
  | _ => (0, cs)

/-- The optional `(?P<tz_sign>[+-Z])?` group. -/
def optTzSign (cs : List Char) : Option Char × List Char :=
  match cs with
  | c :: rest => if c = '+' || c = '-' || c = 'Z' then (some c, rest) else (none, cs)
  | [] => (none, cs)

/-- The apostrophe character used as the timezone quote in PDF date strings. -/
def tzQuote : Char := Char.ofNat 39

/-- One optional timezone-quote character. -/
def optTzQuote (cs : List Char) : List Char :=
  match cs with
  | c :: rest => if c = tzQuote then rest else cs
  | [] => cs

/-- Gregorian leap-year rule, as in the Python `datetime` module. -/
def isLeapYear (y : Nat) : Bool :=
  (y % 4 = 0 && y % 100 ≠ 0) || y % 400 = 0

/-- Day count of a month, as validated by the Python `datetime` constructor. -/
def daysInMonth (y m : Nat) : Nat :=
  if m = 2 then (if isLeapYear y then 29 else 28)
  else if m = 4 || m = 6 || m = 9 || m = 11 then 30
  else 31

/-- Range checks performed by `datetime(year, month, day, hour, minute, second)`;
violating them raises `ValueError` in the source. -/
def validDatetimeParts (y mo d h mi s : Nat) : Bool :=
  1 ≤ y && y ≤ 9999 && 1 ≤ mo && mo ≤ 12 && 1 ≤ d && d ≤ daysInMonth y mo &&
    h ≤ 23 && mi ≤ 59 && s ≤ 59

/-- Range check performed by `timezone(delta)`: the offset must lie strictly
between -24 and +24 hours. -/
def validTzOffset (m : Int) : Bool := m.natAbs ≤ 1439

/-- helpers.parse_pdf_date.  Empty input returns `none`; the positional
pattern `(?P<year>\d{4})(?P<month>\d{2})? ... (?P<tz_minute>\d{2})?` is a
chain of a mandatory year followed by optional fixed-width tokens matched
greedily left to right (no backtracking can occur: every token after the year
is optional and `re.match` only requires a prefix match), each missing token
defaulting to 00.  The timezone sign `Z` yields utc; otherwise the signed
hour/minute offset is used (an absent sign defaults to the string `00`,
which is neither `Z` nor `-`, hence a positive zero offset). -/
def parse_pdf_date (pdf_date : String) : Except DateError (Option PDateTime) :=
  if pdf_date = "" then .ok none
  else
    let s := stripDPrefix pdf_date
    match fourDigitYear s.data with
    | none => .error (.invalidFormat s)
    | some (y, cs1) =>
      let (mo, cs2) := optTwoDigits cs1
      let (d, cs3) := optTwoDigits cs2
      let (h, cs4) := optTwoDigits cs3
      let (mi, cs5) := optTwoDigits cs4
      let (sec, cs6) := optTwoDigits cs5
      let (sign, cs7) := optTzSign cs6
      let (tzh, cs8) := optTwoDigits cs7
      let cs9 := optTzQuote cs8
      let (tzm, _) := optTwoDigits cs9
      if validDatetimeParts y mo d h mi sec then
        let off : Int :=
          if sign = some 'Z' then 0
          else if sign = some '-' then -((tzh * 60 + tzm : Nat) : Int)
          else ((tzh * 60 + tzm : Nat) : Int)
        if validTzOffset off then .ok (some ⟨y, mo, d, h, mi, sec, off⟩)
        else .error .badComponent
      else .error .badComponent

/-- The sample date string `D:20230615120000+02` followed by quote, `00`, quote. -/
def sampleDatePlus : String :=
  "D:20230615120000+02" ++ String.mk [tzQuote] ++ "00" ++ String.mk [tzQuote]

/-!
An executable model of the fragment of the Python `re` engine exercised by
the PII pattern registry: character classes, concatenation, ordered
alternation, greedy `*` `+` `?` `{m,n}` quantifiers and numbered capturing
groups, with backtracking leftmost-preference semantics and the
`re.findall` result shape (full match for zero groups, the single group for
one group, the tuple of groups for two or more, unmatched groups read as the
empty string).  Character classes are the ASCII sets the source patterns
spell out.  Total via a fuel argument; the fuel chosen in `pyFindall` is far
above the recursion depth any of the registry patterns can reach on a given
input, and every concrete evaluation below confirms the expected matches are
found.
-/

/-- Regular-expression abstract syntax.  `cls` holds inclusive character
ranges (a singleton character is a degenerate range); `alt` prefers its left
alternative; `star` is greedy; `grp` is a numbered capturing group. -/
inductive RE where
  | eps
  | cls (ranges : List (Char × Char))
  | cat (a b : RE)
  | alt (a b : RE)
  | star (a : RE)
  | grp (idx : Nat) (a : RE)
  deriving Repr

/-- Membership of a character in a class given as inclusive ranges. -/
def inClass (ranges : List (Char × Char)) (c : Char) : Bool :=
  ranges.any fun r => decide (r.1 ≤ c) && decide (c ≤ r.2)

/-- Capture store: entries `(group index, start, end)` over positions in the
subject, most recent first (a repeated group keeps its last capture, as in
Python). -/
abbrev Caps := List (Nat × Nat × Nat)

/-- Backtracking matcher in continuation-passing style, mirroring the Python
engine: ordered alternation, greedy repetition, first success wins.  A
repetition whose body matches without consuming input stops iterating (the
Python engine breaks out of empty repeats); none of the registry patterns
has a nullable repetition body, so this guard is never reached on them. -/
def reMat : Nat → RE → List Char → Nat → Caps →
    (List Char → Nat → Caps → Option (Nat × Caps)) → Option (Nat × Caps)
  | 0, _, _, _, _, _ => none
  | fuel + 1, re, cs, pos, caps, k =>
    match re with
    | .eps => k cs pos caps
    | .cls ranges =>
      match cs with
      | [] => none
      | c :: rest => if inClass ranges c then k rest (pos + 1) caps else none
    | .cat a b =>
      reMat fuel a cs pos caps fun cs2 p2 caps2 => reMat fuel b cs2 p2 caps2 k
    | .alt a b =>
      match reMat fuel a cs pos caps k with
      | some r => some r
      | none => reMat fuel b cs pos caps k
    | .star a =>
      match reMat fuel a cs pos caps
          (fun cs2 p2 caps2 =>
            if p2 = pos then none else reMat fuel (.star a) cs2 p2 caps2 k) with
      | some r => some r
      | none => k cs pos caps
    | .grp idx a =>
      reMat fuel a cs pos caps fun cs2 p2 caps2 => k cs2 p2 ((idx, pos, p2) :: caps2)

/-- The substring of the subject between two positions. -/
def subStr (s : List Char) (a b : Nat) : String := String.mk ((s.drop a).take (b - a))

/-- Last-capture lookup for a group index. -/
def capLookup : Caps → Nat → Option (Nat × Nat)
  | [], _ => none
  | (i, a, b) :: rest, idx => if i = idx then some (a, b) else capLookup rest idx

/-- Text of a captured group; an unmatched group reads as the empty string,
as `re.findall` reports it. -/
def capString (s : List Char) (caps : Caps) (idx : Nat) : String :=
  match capLookup caps idx with
  | some (a, b) => subStr s a b
  | none => ""

/-- First (preference-order) match of `re` at a fixed start position. -/
def tryMatchAt (fuel : Nat) (re : RE) (cs : List Char) (pos : Nat) : Option (Nat × Caps) :=
  reMat fuel re cs pos [] fun _ p caps => some (p, caps)

/-- Scan for successive non-overlapping leftmost matches, restarting after
the end of each match (one position further for an empty match), as
`re.findall` does; a final attempt is made at the end of the subject. -/
def scanAll (sfuel fuel : Nat) (re : RE) (pos : Nat) (cs : List Char) :
    List (Nat × Nat × Caps) :=
  match sfuel with
  | 0 => []
  | sfuel + 1 =>
    match cs with
    | [] =>
      match tryMatchAt fuel re [] pos with
      | some (e, caps) => [(pos, e, caps)]
      | none => []
    | c :: rest =>
      match tryMatchAt fuel re (c :: rest) pos with
      | some (e, caps) =>
        if e = pos then (pos, e, caps) :: scanAll sfuel fuel re (pos + 1) rest
        else (pos, e, caps) :: scanAll sfuel fuel re e ((c :: rest).drop (e - pos))
      | none => scanAll sfuel fuel re (pos + 1) rest

/-- Number of capturing groups of a pattern (the highest group index). -/
def numGroups : RE → Nat
  | .eps => 0
  | .cls _ => 0
  | .cat a b => max (numGroups a) (numGroups b)
  | .alt a b => max (numGroups a) (numGroups b)
  | .star a => numGroups a
  | .grp i a => max i (numGroups a)

/-- One element of a `re.findall` result: a string (no or one capturing
group) or a tuple of group texts (two or more groups). -/
inductive FindItem where
  | str (s : String)
  | tup (l : List String)
  deriving DecidableEq, Repr

/-- Model of `re.findall(pattern, text)`: every non-overlapping leftmost
match, reported as the full match text when the pattern has no capturing
group, as the single group text for one group, and as the tuple of all
group texts for two or more groups. -/
def pyFindall (re : RE) (text : String) : List FindItem :=
  let s := text.data
  let n := numGroups re
  (scanAll (s.length + 1) (1000 + 100 * s.length) re 0 s).map fun m =>
    match m with
    | (st, en, caps) =>
      if n = 0 then .str (subStr s st en)
      else if n = 1 then .str (capString s caps 1)
      else .tup ((List.range n).map fun i => capString s caps (i + 1))

/-- Python truthiness of a `findall` element, as tested by `if match:` in
the source: a string is truthy iff non-empty; a tuple is truthy iff
non-empty as a tuple — regardless of its contents, so a tuple of empty
group texts is still truthy. -/
def pyTruthy : FindItem → Bool
  | .str s => s != ""
  | .tup l => l != []

/-- Digit class `[0-9]` (also `\d`). -/
def digitCls : RE := .cls [('0', '9')]

/-- Whitespace class `\s` over ASCII: space and the five control
whitespace characters (tab through carriage return). -/
def spaceCls : RE := .cls [(' ', ' '), (Char.ofNat 9, Char.ofNat 13)]

/-- Word class `\w` over ASCII: letters, digits and underscore. -/
def wordCls : RE := .cls [('a', 'z'), ('A', 'Z'), ('0', '9'), ('_', '_')]

/-- Letter class `[a-zA-Z]`. -/
def letterCls : RE := .cls [('a', 'z'), ('A', 'Z')]

/-- One or more repetitions, greedy (`+`). -/
def rePlus (a : RE) : RE := .cat a (.star a)

/-- Zero or one repetition, greedy (`?`). -/
def reOpt (a : RE) : RE := .alt a .eps

/-- A single literal character. -/
def reChar (c : Char) : RE := .cls [(c, c)]

/-- A literal string. -/
def reStr (s : String) : RE := s.data.foldr (fun c acc => .cat (reChar c) acc) .eps

/-- Exactly `n` repetitions (`{n}`). -/
def reTimes (n : Nat) (a : RE) : RE := (List.replicate n a).foldr .cat .eps

/-- At most `n` repetitions, greedy, realized as nested options so that
longer repetitions are preferred. -/
def reUpTo : Nat → RE → RE
  | 0, _ => .eps
  | n + 1, a => reOpt (.cat a (reUpTo n a))

/-- Between `lo` and `hi` repetitions, greedy (`{lo,hi}`). -/
def reRange (lo hi : Nat) (a : RE) : RE := .cat (reTimes lo a) (reUpTo (hi - lo) a)

/-- The atom-text class of the email pattern:
`[a-z0-9!#$%&...*+/=?^_...|~-]` including apostrophe, backquote and both
braces (written via code points). -/
def atextCls : RE := .cls
  [('a', 'z'), ('0', '9'), ('!', '!'), ('#', '#'), ('$', '$'), ('%', '%'),
   ('&', '&'), (Char.ofNat 39, Char.ofNat 39), ('*', '*'), ('+', '+'),
   ('/', '/'), ('=', '='), ('?', '?'), ('^', '^'), ('_', '_'),
   (Char.ofNat 96, Char.ofNat 96), (Char.ofNat 123, Char.ofNat 123),
   ('|', '|'), (Char.ofNat 125, Char.ofNat 125), ('~', '~'), ('-', '-')]

/-- Quoted-string text class of the email pattern
(x01-x08, x0b, x0c, x0e-x1f, x21, x23-x5b, x5d-x7f). -/
def qtextCls : RE := .cls
  [(Char.ofNat 1, Char.ofNat 8), (Char.ofNat 11, Char.ofNat 12),
   (Char.ofNat 14, Char.ofNat 31), (Char.ofNat 33, Char.ofNat 33),
   (Char.ofNat 35, Char.ofNat 91), (Char.ofNat 93, Char.ofNat 127)]

/-- Quoted-pair class of the email pattern (x01-x09, x0b, x0c, x0e-x7f). -/
def qpairCls : RE := .cls
  [(Char.ofNat 1, Char.ofNat 9), (Char.ofNat 11, Char.ofNat 12),
   (Char.ofNat 14, Char.ofNat 127)]

/-- Domain-literal text class of the email pattern, transcribed with the
overlapping ranges of the source (x01-x08, x0b, x0c, x0e-x1f, x21-x5a,
x53-x7f). -/
def dtextCls : RE := .cls
  [(Char.ofNat 1, Char.ofNat 8), (Char.ofNat 11, Char.ofNat 12),
   (Char.ofNat 14, Char.ofNat 31), (Char.ofNat 33, Char.ofNat 90),
   (Char.ofNat 83, Char.ofNat 127)]

/-- Class `[a-z0-9]`. -/
def alnumCls : RE := .cls [('a', 'z'), ('0', '9')]

/-- Class `[a-z0-9-]`. -/
def alnumHyphenCls : RE := .cls [('a', 'z'), ('0', '9'), ('-', '-')]

/-- Dot-atom local part of the email pattern. -/
def emailLocalAtom : RE :=
  .cat (rePlus atextCls) (.star (.cat (reChar '.') (rePlus atextCls)))

/-- Quoted-string local part of the email pattern. -/
def emailLocalQuoted : RE :=
  .cat (reChar '"')
    (.cat (.star (.alt qtextCls (.cat (reChar '\\') qpairCls))) (reChar '"'))

/-- One dotted-quad octet of the email pattern domain literal,
`(2(5[0-5]|[0-4][0-9])|1[0-9][0-9]|[1-9]?[0-9])`, with its two capturing
groups at the given indices. -/
def ipOctet (g1 g2 : Nat) : RE :=
  .grp g1 (.alt
    (.cat (reChar '2') (.grp g2 (.alt (.cat (reChar '5') (.cls [('0', '5')]))
      (.cat (.cls [('0', '4')]) digitCls))))
    (.alt (.cat (reChar '1') (.cat digitCls digitCls))
      (.cat (reOpt (.cls [('1', '9')])) digitCls)))

/-- One host label `[a-z0-9](?:[a-z0-9-]*[a-z0-9])?`. -/
def hostLabel : RE := .cat alnumCls (reOpt (.cat (.star alnumHyphenCls) alnumCls))

/-- Dotted host-name domain of the email pattern. -/
def emailDomainHost : RE := .cat (rePlus (.cat hostLabel (reChar '.'))) hostLabel

/-- Bracketed domain literal of the email pattern; its four capturing groups
are numbered 1 to 4 as Python numbers the opening parentheses. -/
def emailDomainIp : RE :=
  .cat (reChar '[')
    (.cat (reTimes 3 (.cat (ipOctet 1 2) (reChar '.')))
      (.cat (.alt (ipOctet 3 4)
          (.cat (.star alnumHyphenCls)
            (.cat alnumCls
              (.cat (reChar ':') (rePlus (.alt dtextCls (.cat (reChar '\\') qpairCls)))))))
        (reChar ']')))

/-- The email pattern of the registry (pii_extraction.py): an RFC-5322-ish
local part, `@`, and a host-name or bracketed-literal domain. -/
def emailRE : RE :=
  .cat (.alt emailLocalAtom emailLocalQuoted)
    (.cat (reChar '@') (.alt emailDomainHost emailDomainIp))

/-- The phone pattern of the registry:
a backslash-parenthesis option, group 1 `([+]31|0031|0)`, optional space and
hyphen, `6`, group 2 `(\s?|-)`, then group 3 `([0-9]\s{0,3})` eight times. -/
def phoneRE : RE :=
  .cat (reOpt (reChar '('))
    (.cat (.grp 1 (.alt (reStr "+31") (.alt (reStr "0031") (reChar '0'))))
      (.cat (reOpt spaceCls)
        (.cat (reOpt (reChar '-'))
          (.cat (reChar '6')
            (.cat (.grp 2 (.alt (reOpt spaceCls) (reChar '-')))
              (reTimes 8 (.grp 3 (.cat digitCls (reRange 0 3 spaceCls)))))))))

/-- The postcode pattern of the registry, one group spanning the whole
match: `(\d{4}\s?[a-zA-Z]{2})`. -/
def postcodeRE : RE :=
  .grp 1 (.cat (reTimes 4 digitCls) (.cat (reOpt spaceCls) (reTimes 2 letterCls)))

/-- The national-id (bsn) pattern of the registry: `\d{9}`, no groups. -/
def bsnRE : RE := reTimes 9 digitCls

/-- The address pattern of the registry:
`\d{1,5}\s\w+\s\w+,\s\w+\s\d{5}`, no groups. -/
def addressRE : RE :=
  .cat (reRange 1 5 digitCls)
    (.cat spaceCls
      (.cat (rePlus wordCls)
        (.cat spaceCls
          (.cat (rePlus wordCls)
            (.cat (reChar ',')
              (.cat spaceCls
                (.cat (rePlus wordCls) (.cat spaceCls (reTimes 5 digitCls)))))))))

/-- The ordered PII pattern registry.  helpers.py loads it as `re_objects`
from a module that is not among the sources; the registry here is the
pattern dictionary of pii_extraction.py, the sibling iteration of the same
matcher present in the sources, whose categories match the design document
(`bsn` is the national-id category). -/
def PATTERNS : List (String × RE) :=
  [("email", emailRE), ("phone", phoneRE), ("postcode", postcodeRE),
   ("bsn", bsnRE), ("address", addressRE)]

/-- helpers.extract_pii: for every category in registry order, every
truthy `re.findall` element in match order, yield the pair
`(category, element)`. -/
def extract_pii (text : String) : List (String × FindItem) :=
  PATTERNS.flatMap fun kv => ((pyFindall kv.2 text).filter pyTruthy).map fun m => (kv.1, m)

/-- pii_extraction.extract_pii: the same loop as helpers.extract_pii over
the same patterns, followed by an unconditional trailing `(None, None)`
pair. -/
def extract_pii_with_sentinel (text : String) : List (Option String × Option FindItem) :=
  ((extract_pii text).map fun kv => (some kv.1, some kv.2)) ++ [(none, none)]

/-!
The page data model: the external PDF-structure provider (pdfplumber) hands
each classifier a page with ordered character, rectangle and image
primitives.  Geometry and colour values, floats or Decimals in the provider,
are modelled as rationals.  The provider-computed whole-page text
(`page.extract_text(x_tolerance=1, y_tolerance=1)`) and the OCR output for
an image (an external capability) are carried as data on the page and the
image.
-/

/-- A character primitive: bounding box, text and fill-colour channels.
`non_stroking_color` is the channel list of `obj.get(..., [])`: a missing
colour is the empty list.  The `object_type == char` test of the source
holds by construction for every element of a page character list. -/
structure PChar where
  x0 : ℚ
  y0 : ℚ
  x1 : ℚ
  y1 : ℚ
  text : String
  non_stroking_color : List ℚ
  deriving DecidableEq, Repr

/-- A rectangle primitive: bounding box, filled flag and fill-colour
channels.  `fill` models `rect.get(0x27fill0x27, None) == True`;
`non_stroking_color` is the channel list after the scalar-to-singleton
normalisation the source performs (a missing colour is the empty list). -/
structure PRect where
  x0 : ℚ
  y0 : ℚ
  x1 : ℚ
  y1 : ℚ
  fill : Bool
  non_stroking_color : List ℚ
  deriving DecidableEq, Repr

/-- The colour-space value as the provider hands it over.  `pyStr` is a
Python string.  `obj` is any non-string value (pdfminer hands over a
PSLiteral such as DeviceGray, an indirect object reference, or a list);
`dunderName` is its dunder name attribute when it has one — a PSLiteral
has a `name` attribute but no dunder name, so for it `dunderName` is
`none`.  Such provider objects use identity-based equality and never
compare equal to a Python string. -/
inductive PyColorSpace where
  | pyStr (s : String)
  | obj (dunderName : Option String)
  deriving DecidableEq, Repr

/-- An embedded image primitive: the stream attributes and raw payload the
codec adapter reads, plus `ocr_lines`, the text lines the external OCR
capability returns for the decoded image. -/
structure PDFImage where
  width : Nat
  height : Nat
  color_space : PyColorSpace
  bits_per_component : Nat
  filter : String
  data : List Nat
  ocr_lines : List String
  deriving DecidableEq, Repr

/-- One page of the provider page sequence. -/
structure Page where
  page_number : Nat
  chars : List PChar
  rects : List PRect
  images : List PDFImage
  extracted_text : String
  deriving DecidableEq, Repr

/-- A decoded raster image (the PIL image object). -/
structure Raster where
  mode : String
  width : Nat
  height : Nat
  data : List Nat
  deriving DecidableEq, Repr

/-- The artifact type tags of classes.ArtifactType. -/
inductive ArtifactType where
  | UNSPECIFIED
  | REGULAR_TEXT
  | IMAGE
  | WHITE_TEXT
  | FILLED_RECTANGLE
  deriving DecidableEq, Repr

/-- The `text` attribute of an artifact: a plain string, or, for image
artifacts, the list of OCR lines (the Python code stores either type in the
same attribute). -/
inductive TextV where
  | str (s : String)
  | strs (l : List String)
  deriving DecidableEq, Repr

/-- Python truthiness of an artifact text (`if artifact.text:`). -/
def textTruthy : TextV → Bool
  | .str s => s != ""
  | .strs l => l != []

/-- classes.ExtractedArtifact. -/
structure ExtractedArtifact where
  page_number : Nat
  text : TextV
  object_ref : Option Raster
  description : String
  artifact_type : ArtifactType
  deriving DecidableEq, Repr

/-- The ExtractedArtifact initializer: when no explicit type is supplied the
type is derived from `object_ref` (None yields REGULAR_TEXT, otherwise
IMAGE). -/
def mkExtractedArtifact (page_number : Nat) (text : TextV) (object_ref : Option Raster)
    (description : String) (artifact_type : ArtifactType) : ExtractedArtifact :=
  { page_number := page_number, text := text, object_ref := object_ref,
    description := description,
    artifact_type :=
      if artifact_type ≠ .UNSPECIFIED then artifact_type
      else match object_ref with
        | none => .REGULAR_TEXT
        | some _ => .IMAGE }

/-- Python banker rounding (`round` on a float: nearest integer, ties to
the even neighbour), on the rational model of coordinates, computed in
integer arithmetic on the reduced numerator and denominator: with
`f = floor q` and remainder `r = num - f*den`, the fractional part `r/den`
is compared against one half, ties going to the even of `f` and `f+1`. -/
def pyRound (q : ℚ) : Int :=
  let n := q.num
  let d : Int := (q.den : Int)
  let f := Int.fdiv n d
  let r := n - f * d
  if 2 * r < d then f
  else if d < 2 * r then f + 1
  else if f % 2 = 0 then f
  else f + 1

/-- White classification of the White-Text Extractor: every fill-colour
channel lies in the closed interval from 0.8 to 1.0; an empty channel list
passes vacuously. -/
def isWhiteChar (c : PChar) : Bool :=
  c.non_stroking_color.all fun q => decide (mkRat 4 5 ≤ q ∧ q ≤ 1)

/-- The streamed character loop of extract_white_text_from_pdf over
(page number, character) pairs: consecutive white characters accumulate in
`buf`; a non-white character flushes a non-empty buffer as one WHITE_TEXT
artifact tagged with the page number of the non-white character.  The
stream ends without flushing, exactly as the source loop does: a trailing
buffer is dropped. -/
def whiteLoop : List (Nat × PChar) → String → List ExtractedArtifact
  | [], _ => []
  | (pn, c) :: rest, buf =>
    if isWhiteChar c then whiteLoop rest (buf ++ c.text)
    else if buf != "" then
      mkExtractedArtifact pn (.str buf) none "" .WHITE_TEXT :: whiteLoop rest ""
    else whiteLoop rest ""

/-- The document-order character stream, tagged with page numbers. -/
def pageCharStream (pages : List Page) : List (Nat × PChar) :=
  pages.flatMap fun p => p.chars.map fun c => (p.page_number, c)

/-- helpers.extract_white_text_from_pdf. -/
def extract_white_text_from_pdf (pages : List Page) : List ExtractedArtifact :=
  whiteLoop (pageCharStream pages) ""

/-- Dark classification of the Masked-Rectangle-Text Extractor: every
fill-colour channel lies in the closed interval from 0.0 to 0.2; an empty
channel list passes vacuously. -/
def isDarkColor (color : List ℚ) : Bool :=
  color.all fun c => decide ((0 : ℚ) ≤ c ∧ c ≤ mkRat 1 5)

/-- Containment test of the source: every edge of the character bounding
box, rounded, lies within the given rounded rectangle bounds. -/
def charInRoundedRect (x0 y0 x1 y1 : Int) (c : PChar) : Bool :=
  decide (x0 ≤ pyRound c.x0 ∧ pyRound c.x1 ≤ x1 ∧ y0 ≤ pyRound c.y0 ∧ pyRound c.y1 ≤ y1)

/-- Text captured under one qualifying rectangle: the concatenated text of
every page character whose rounded bounding box the bounds contain. -/
def rectCapturedText (chars : List PChar) (x0 y0 x1 y1 : Int) : String :=
  String.join ((chars.filter (charInRoundedRect x0 y0 x1 y1)).map PChar.text)

/-- The rectangle loop of extract_text_inside_filled_rectangles on one page.
State: the vertical band offset `lastY` (carried across pages) and the
captured text `cap` (reset per page).  For each rectangle, in order: a new
top-y value flushes a non-empty capture as one FILLED_RECTANGLE artifact and
starts a new band; a rectangle that is filled and dark then captures the
text of every contained character.  (The `has_dark_rects` variable of the
source is written but never read and is omitted.) -/
def rectLoop (pn : Nat) (chars : List PChar) :
    List PRect → Int → String → List ExtractedArtifact × Int × String
  | [], lastY, cap => ([], lastY, cap)
  | r :: rs, lastY, cap =>
    let x0 := pyRound r.x0
    let y0 := pyRound r.y0
    let x1 := pyRound r.x1
    let y1 := pyRound r.y1
    let flushed : List ExtractedArtifact :=
      if lastY ≠ y0 ∧ cap ≠ "" then
        [mkExtractedArtifact pn (.str cap) none "" .FILLED_RECTANGLE]
      else []
    let cap1 := if lastY ≠ y0 then "" else cap
    let cap2 :=
      if r.fill && isDarkColor r.non_stroking_color then
        cap1 ++ rectCapturedText chars x0 y0 x1 y1
      else cap1
    let rest := rectLoop pn chars rs y0 cap2
    (flushed ++ rest.1, rest.2.1, rest.2.2)

/-- The page loop of extract_text_inside_filled_rectangles: the band offset
starts at -1 and survives page boundaries; a non-empty capture left at the
end of a page is flushed as one artifact of that page. -/
def filledRectPages : List Page → Int → List ExtractedArtifact
  | [], _ => []
  | p :: ps, lastY =>
    let r := rectLoop p.page_number p.chars p.rects lastY ""
    r.1 ++
      (if r.2.2 != "" then
        [mkExtractedArtifact p.page_number (.str r.2.2) none "" .FILLED_RECTANGLE]
      else []) ++
      filledRectPages ps r.2.1

/-- helpers.extract_text_inside_filled_rectangles (the unused `out` path
parameter of the source is dropped). -/
def extract_text_inside_filled_rectangles (pages : List Page) : List ExtractedArtifact :=
  filledRectPages pages (-1)

/-- helpers.extract_text_from_pdf: one REGULAR_TEXT artifact per page, the
provider-extracted page text plus a trailing newline. -/
def extract_text_from_pdf (pages : List Page) : List ExtractedArtifact :=
  pages.map fun p =>
    mkExtractedArtifact p.page_number (.str (p.extracted_text ++ "\n")) none "" .UNSPECIFIED

/-!
The image codec adapter.  The two PIL entry points the adapter calls are
external collaborators and appear as decoder parameters: `jpegDecode` is
`Image.open` on a JPEG stream (the DCTDecode branch) and `autoDetect` is
`Image.open(io.BytesIO(data), formats=None)`, the generic format-sniffing
open of the final branch.  Only the FlateDecode branch is computed by the
source itself — and its grayscale test routes the colour space through
`resolve` imported from pydoc (helpers.py line 6), whose documented
behaviour the model follows exactly: for a non-string value it returns the
pair (object, dunder name or None), making the `in` test a two-element
tuple membership; for a string it tries to import a Python object of that
name and raises ImportError when none exists, which is the case for every
PDF colour-space tag.
-/

/-- The external PIL decoders. -/
structure Decoders where
  jpegDecode : List Nat → Except String Raster
  autoDetect : List Nat → Except String Raster

/-- Failures of the codec adapter: an error raised by an external PIL
decoder (carrying the PIL message only), the ImportError pydoc resolve
raises on a string colour space, or the length error of `Image.frombytes`
(unreachable from the adapter, which corrects the buffer length first). -/
inductive CodecError where
  | externalError (msg : String)
  | resolveImportError
  | frombytesLength
  deriving DecidableEq, Repr

/-- Whether a character list begins with another (needle first). -/
def charsStartWith : List Char → List Char → Bool
  | [], _ => true
  | _ :: _, [] => false
  | a :: as, b :: bs => a == b && charsStartWith as bs

/-- Whether a character list occurs inside another (needle first). -/
def charsContain : List Char → List Char → Bool
  | needle, [] => charsStartWith needle []
  | needle, b :: bs => charsStartWith needle (b :: bs) || charsContain needle bs

/-- Substring containment, modelling the Python `in` test on strings. -/
def strContains (hay needle : String) : Bool := charsContain needle.data hay.data

/-- The test `"DeviceGray" in resolve(color_space)` of the FlateDecode
branch.  For a non-string value pydoc resolve returns the pair
(object, dunder name or None) and the `in` operator tests equality of the
string DeviceGray with each component: the object half is identity-based
and false against a string, so the test reduces to the dunder-name half
(which is None for the PSLiteral values the provider supplies).  For a
string value resolve raises ImportError, since no importable Python object
is named after a PDF colour-space tag; that is the error case. -/
def resolveHasDeviceGray : PyColorSpace → Except Unit Bool
  | .pyStr _ => .error ()
  | .obj dunderName => .ok (dunderName == some "DeviceGray")

/-- Model of `Image.frombytes(mode, (width, height), data)`: requires the
exact sample-buffer length for the mode. -/
def pil_frombytes (mode : String) (width height : Nat) (data : List Nat) :
    Except CodecError Raster :=
  let expected := if mode = "L" then width * height else width * height * 3
  if data.length = expected then .ok ⟨mode, width, height, data⟩
  else .error .frombytesLength

/-- helpers._extract_image_data_from_pdf_image: DCTDecode streams go to the
JPEG decoder; FlateDecode streams are raw samples — mode `L` when
`"DeviceGray" in resolve(color_space)` holds, else `RGB` — zero-padded or
truncated to the expected length `width*height` (mode L) or
`width*height*3` (mode RGB) and rebuilt with frombytes; any other filter
tag goes to the generic auto-detecting decoder, whose failure propagates
unchanged. -/
def _extract_image_data_from_pdf_image (dec : Decoders) (img : PDFImage) :
    Except CodecError Raster :=
  if strContains img.filter "DCTDecode" then
    (dec.jpegDecode img.data).mapError .externalError
  else if strContains img.filter "FlateDecode" then
    match resolveHasDeviceGray img.color_space with
    | .error _ => .error .resolveImportError
    | .ok hasGray =>
      let mode := if hasGray then "L" else "RGB"
      let expected_len := if mode = "L" then img.width * img.height
        else img.width * img.height * 3
      let corrected :=
        if img.data.length < expected_len then
          img.data ++ List.replicate (expected_len - img.data.length) 0
        else if expected_len < img.data.length then img.data.take expected_len
        else img.data
      pil_frombytes mode img.width img.height corrected
  else
    (dec.autoDetect img.data).mapError .externalError

/-!
The finding aggregator (helpers.process_pdf) and the batch orchestration of
main.py.  Document metadata is carried as the strings `pdf.metadata.get`
returns (a missing key defaulting to the empty string).  File output is out
of scope; the returned record is the observable result.
-/

/-- classes.PossibleArtifactFinding: a PII hit (or whole-artifact finding)
with the fields copied from its originating artifact. -/
structure PossibleArtifactFinding where
  page_number : Nat
  text : TextV
  artifact_type : ArtifactType
  matched_data : FindItem
  matched_data_type : String
  deriving DecidableEq, Repr

/-- classes.PossibleArtifactFinding.from_extracted_artifact. -/
def from_extracted_artifact (a : ExtractedArtifact) (matched_data : FindItem)
    (matched_data_type : String) : PossibleArtifactFinding :=
  ⟨a.page_number, a.text, a.artifact_type, matched_data, matched_data_type⟩

/-- classes.ScannedPDF, including the `potential_signatures` attribute that
process_pdf sets on it. -/
structure ScannedPDF where
  path : String
  author : String
  title : String
  subject : String
  keywords : String
  producer : String
  creator : String
  creation_date : Option PDateTime
  modification_date : Option PDateTime
  potential_signatures : Bool
  findings : List PossibleArtifactFinding
  deriving DecidableEq, Repr

/-- The document metadata values read via `pdf.metadata.get(key, ...)`,
with the empty string for missing keys. -/
structure PDFMetadata where
  author : String
  title : String
  subject : String
  keywords : String
  producer : String
  creator : String
  creation_date_str : String
  mod_date_str : String
  deriving DecidableEq, Repr

/-- A document as the external provider exposes it. -/
structure PDFDocument where
  path : String
  metadata : PDFMetadata
  pages : List Page
  deriving DecidableEq, Repr

/-- The date-assignment block of process_pdf.  The try body assigns the
creation date and then parses the modification date, and the bare except
swallows the failure: a creation-date failure leaves both fields at their
initial None, while a modification-date failure keeps the already assigned
creation date and leaves only the modification date unset. -/
def datesFromMetadata (c m : String) : Option PDateTime × Option PDateTime :=
  match parse_pdf_date c with
  | .error _ => (none, none)
  | .ok cv =>
    match parse_pdf_date m with
    | .error _ => (cv, none)
    | .ok mv => (cv, mv)

/-- helpers.check_for_signatures: the last page carries at least one image.
(The source indexes `pages[-1]`; its only call site has already ruled out an
empty page list.) -/
def check_for_signatures (pages : List Page) : Bool :=
  match pages.getLast? with
  | some p => !p.images.isEmpty
  | none => false

/-- Failures that abort one document: the zero-page condition raised at
open time (the StopAsyncIteration of the source, the DocumentOpenError of
the design document) and the RuntimeError a classifier raises mid-stream,
carrying the document path and the last processed page number. -/
inductive PipelineErr where
  | noPages (path : String)
  | pageError (path : String) (page_number : Nat)
  deriving DecidableEq, Repr

/-- The artifact text for an OCR result: `image_text if image_text else`
the empty string — an empty line list collapses to the empty string. -/
def ocrTextValue (lines : List String) : TextV :=
  if lines = [] then .str "" else .strs lines

/-- The artifact description for an image. -/
def imageDescription (pn : Nat) : String := "Image on page " ++ toString pn

/-- The per-page image loop of extract_images_from_pdf: decode each image
(via the codec adapter), have OCR read it, and emit one artifact carrying
the OCR lines and the decoded image; a decoding failure aborts the stream
with a page error. -/
def pageImageArtifacts (dec : Decoders) (path : String) (pn : Nat) :
    List PDFImage → Except PipelineErr (List ExtractedArtifact)
  | [] => .ok []
  | im :: ims =>
    match _extract_image_data_from_pdf_image dec im with
    | .error _ => .error (.pageError path pn)
    | .ok raster =>
      match pageImageArtifacts dec path pn ims with
      | .error e => .error e
      | .ok rest =>
        .ok (mkExtractedArtifact pn (ocrTextValue im.ocr_lines) (some raster)
          (imageDescription pn) .UNSPECIFIED :: rest)

/-- helpers.extract_images_from_pdf over all pages. -/
def extract_images_from_pdf (dec : Decoders) (path : String) :
    List Page → Except PipelineErr (List ExtractedArtifact)
  | [] => .ok []
  | p :: ps =>
    match pageImageArtifacts dec path p.page_number p.images with
    | .error e => .error e
    | .ok arts =>
      match extract_images_from_pdf dec path ps with
      | .error e => .error e
      | .ok rest => .ok (arts ++ rest)

/-- Python `" ".join(artifact.text)`: joins the OCR lines with spaces; a
plain string would be joined character by character (only reachable for an
empty image text, which the truthiness guard already filtered). -/
def pyJoinSpace : TextV → String
  | .strs l => String.intercalate " " l
  | .str s => String.intercalate " " (s.data.map fun c => String.mk [c])

/-- The matched_data payload when a whole artifact text becomes the
finding: the text itself (a plain string for rectangle artifacts). -/
def findItemOfText : TextV → FindItem
  | .str s => .str s
  | .strs l => .tup l

/-- The plain string under an artifact text (text artifacts always carry
strings). -/
def stringOfText : TextV → String
  | .str s => s
  | .strs l => String.join l

/-- The masked-text loop of process_pdf: each non-empty rectangle artifact
becomes one finding whose matched data is the artifact text itself, tagged
filled_rectangle. -/
def maskedFindings : List ExtractedArtifact → List PossibleArtifactFinding
  | [] => []
  | a :: rest =>
    if textTruthy a.text then
      from_extracted_artifact a (findItemOfText a.text) "filled_rectangle" ::
        maskedFindings rest
    else maskedFindings rest

/-- The plain-text loop of process_pdf: each non-empty text artifact is
scanned by the PII matcher, one finding per match. -/
def textPiiFindings : List ExtractedArtifact → List PossibleArtifactFinding
  | [] => []
  | a :: rest =>
    (if textTruthy a.text then
      (extract_pii (stringOfText a.text)).map fun kv => from_extracted_artifact a kv.2 kv.1
    else []) ++ textPiiFindings rest

/-- The image loop of process_pdf: each artifact with non-empty OCR text is
scanned by the PII matcher over the space-joined lines, one finding per
match. -/
def imagePiiFindings : List ExtractedArtifact → List PossibleArtifactFinding
  | [] => []
  | a :: rest =>
    (if textTruthy a.text then
      (extract_pii (pyJoinSpace a.text)).map fun kv => from_extracted_artifact a kv.2 kv.1
    else []) ++ imagePiiFindings rest

/-- helpers.process_pdf: fail on a zero-page document; read metadata; parse
dates tolerantly; always extract masked-rectangle text and turn it into
findings; compute the signature heuristic; when regex scanning is enabled,
append plain-text PII findings and then image PII findings; assemble the
record.  (The JSON file write of the source is out of scope; the record is
returned.) -/
def process_pdf (dec : Decoders) (doc : PDFDocument) (do_regex : Bool) :
    Except PipelineErr ScannedPDF :=
  if doc.pages.isEmpty then .error (.noPages doc.path)
  else
    let md := doc.metadata
    let dates := datesFromMetadata md.creation_date_str md.mod_date_str
    let findings0 := maskedFindings (extract_text_inside_filled_rectangles doc.pages)
    let sigs := check_for_signatures doc.pages
    if do_regex then
      match extract_images_from_pdf dec doc.path doc.pages with
      | .error e => .error e
      | .ok imageArts =>
        .ok ⟨doc.path, md.author, md.title, md.subject, md.keywords, md.producer,
          md.creator, dates.1, dates.2, sigs,
          findings0 ++ textPiiFindings (extract_text_from_pdf doc.pages) ++
            imagePiiFindings imageArts⟩
    else
      .ok ⟨doc.path, md.author, md.title, md.subject, md.keywords, md.producer,
        md.creator, dates.1, dates.2, sigs, findings0⟩

/-- main.run_in_thread: one document processed in its own worker; any
exception is caught, logged and turned into None. -/
def run_in_thread (dec : Decoders) (do_regex : Bool) (doc : PDFDocument) :
    Option ScannedPDF :=
  (process_pdf dec doc do_regex).toOption

/-- main.process_all_pdfs: gather the per-document results and keep the
non-None ones. -/
def process_all_pdfs (dec : Decoders) (do_regex : Bool) (docs : List PDFDocument) :
    List ScannedPDF :=
  docs.filterMap (run_in_thread dec do_regex)

/-!
Specification-side restatements of the finding order, used to compare the
aggregator against the ordering the design document promises: rectangle
findings in extraction order, then one block of PII findings per page text
in page order (each block in registry order, then match order), then one
block per image artifact in stream order.
-/

/-- The masked findings as a filter-then-map over the rectangle artifact
stream, in stream order. -/
def specMaskedFindings (pages : List Page) : List PossibleArtifactFinding :=
  ((extract_text_inside_filled_rectangles pages).filter fun a => textTruthy a.text).map
    fun a => from_extracted_artifact a (findItemOfText a.text) "filled_rectangle"

/-- The plain-text PII findings, page by page in page order: the matcher
output for the page text (with its trailing newline), in registry order
then match order, each match copied onto a REGULAR_TEXT finding. -/
def specTextPiiFindings (pages : List Page) : List PossibleArtifactFinding :=
  pages.flatMap fun p =>
    (extract_pii (p.extracted_text ++ "\n")).map fun kv =>
      ⟨p.page_number, .str (p.extracted_text ++ "\n"), .REGULAR_TEXT, kv.2, kv.1⟩

/-- The image PII findings over the image artifact stream: one block per
artifact with non-empty OCR text, in stream order, each block in registry
order then match order. -/
def specImagePiiFindings (arts : List ExtractedArtifact) : List PossibleArtifactFinding :=
  arts.flatMap fun a =>
    if textTruthy a.text then
      (extract_pii (pyJoinSpace a.text)).map fun kv => from_extracted_artifact a kv.2 kv.1
    else []

/-!
Concrete sample inputs used to settle the testable properties and to
instantiate the universally quantified theorems.
-/

/-- External decoders that always fail: the JPEG decoder with a data-stream
error, the auto-detecting open with the message PIL raises when the format
sniff fails. -/
def sampleDecoders : Decoders :=
  ⟨fun _ => .error "broken data stream", fun _ => .error "cannot identify image file"⟩

/-- Metadata with every key missing. -/
def emptyMetadata : PDFMetadata := ⟨"", "", "", "", "", "", "", ""⟩

/-- A document whose provider page list is empty. -/
def zeroPageDoc : PDFDocument := ⟨"zero.pdf", emptyMetadata, []⟩

/-- A well-formed sibling document: one page, one dark filled redaction
rectangle covering one character. -/
def validDoc : PDFDocument :=
  ⟨"ok.pdf", emptyMetadata,
   [⟨1, [⟨2, 2, 8, 18, "R", []⟩], [⟨0, 0, 100, 20, true, [0]⟩], [], ""⟩]⟩

/-- The record processing of `validDoc` produces (scanning disabled). -/
def validRecord : ScannedPDF :=
  ⟨"ok.pdf", "", "", "", "", "", "", none, none, false,
   [⟨1, .str "R", .FILLED_RECTANGLE, .str "R", "filled_rectangle"⟩]⟩

/-- A document with a parseable creation date and a malformed modification
date. -/
def dateDoc : PDFDocument :=
  ⟨"dates.pdf", ⟨"", "", "", "", "", "", "D:20230615120000Z", "not-a-date"⟩,
   [⟨1, [], [], [], ""⟩]⟩

/-- The dark filled redaction rectangle of the masked-text scenario,
with bounds (0, 0, 100, 20) and fill colour 0. -/
def redactionRect : PRect := ⟨0, 0, 100, 20, true, [0]⟩

/-- A white character (fill colour (1,1,1)). -/
def whiteCharA : PChar := ⟨0, 0, 1, 1, "A", [1, 1, 1]⟩

/-- A grayscale FlateDecode image declared 10 by 10, its colour space the
provider PSLiteral DeviceGray: a non-string object without a dunder
name. -/
def grayFlateImage (data : List Nat) : PDFImage :=
  ⟨10, 10, .obj none, 8, "FlateDecode", data, []⟩

/-- The same image with the colour space handed over as the Python string
DeviceGray. -/
def grayFlateStrImage (data : List Nat) : PDFImage :=
  ⟨10, 10, .pyStr "DeviceGray", 8, "FlateDecode", data, []⟩

/-- An image with the JPXDecode filter tag and a payload no decoder
accepts. -/
def jpxImage : PDFImage := ⟨4, 4, .obj none, 8, "JPXDecode", [1, 2, 3], []⟩

/-- The characters of the masked-text witness scenario: eight characters
spelling REDACTED inside the rectangle bounds. -/
def redactedChars : List PChar :=
  [⟨2, 2, 8, 18, "R", []⟩, ⟨10, 2, 16, 18, "E", []⟩, ⟨18, 2, 24, 18, "D", []⟩,
   ⟨26, 2, 32, 18, "A", []⟩, ⟨34, 2, 40, 18, "C", []⟩, ⟨42, 2, 48, 18, "T", []⟩,
   ⟨50, 2, 56, 18, "E", []⟩, ⟨58, 2, 64, 18, "D", []⟩]

/-- A character placed outside the rectangle bounds. -/
def outsideChar : PChar := ⟨150, 2, 160, 18, "X", []⟩

/-- The record processing of `validDoc` produces with scanning enabled: the
page text is empty, its trailing-newline blob matches nothing, and there are
no images, so the findings are the masked finding alone. -/
def validRecordScan : ScannedPDF :=
  ⟨"ok.pdf", "", "", "", "", "", "", none, none, false,
   [⟨1, .str "R", .FILLED_RECTANGLE, .str "R", "filled_rectangle"⟩]⟩

/-!
Theorems.  Shared helper lemmas come first; every claim of the review is
settled by exactly one named theorem below (with witness instantiations for
the hypothesis-bearing ones).
-/

/-- C1.  The PII pattern matcher run on the sample text yields exactly one
email pair, one phone pair and one national-id pair, in registry order —
but, because `re.findall` reports the capture-group tuple for patterns with
two or more groups, the email pair carries the tuple of the four (here
unmatched, hence empty) groups of the email pattern instead of the matched
substring `john@example.com`, and the phone pair carries the capture tuple
of its three groups rather than the matched digits; only the group-free
bsn pattern reports the matched substring.  The claimed pair
`(email, john@example.com)` is never produced, refuting the matched-data
half of the claim while confirming that an email-category and a
phone-category pair are yielded. -/
theorem extract_pii_contact_text :
    extract_pii "Contact john@example.com or 0612345678" =
      [("email", .tup ["", "", "", ""]), ("phone", .tup ["0", "", "8"]),
       ("bsn", .str "061234567")] ∧
    ("phone", FindItem.tup ["0", "", "8"]) ∈
      extract_pii "Contact john@example.com or 0612345678" :=
  ⟨by decide, by decide⟩

/-- C3.  The date parser maps the sample `+02` quoted-offset string to
2023-06-15 12:00:00 at offset +120 minutes, the `Z` string to the same
instant at utc, the empty string to an absent result, and any non-empty
string whose (`D:`-stripped) form does not begin with four digits to the
invalid-format error naming that string. -/
theorem parse_pdf_date_spec :
    parse_pdf_date sampleDatePlus = .ok (some ⟨2023, 6, 15, 12, 0, 0, 120⟩) ∧
    parse_pdf_date "D:20230615120000Z" = .ok (some ⟨2023, 6, 15, 12, 0, 0, 0⟩) ∧
    parse_pdf_date "not-a-date" = .error (.invalidFormat "not-a-date") ∧
    parse_pdf_date "" = .ok none ∧
    ∀ s : String, s ≠ "" → fourDigitYear (stripDPrefix s).data = none →
      parse_pdf_date s = .error (.invalidFormat (stripDPrefix s)) := by
  refine ⟨by decide, by decide, by decide, by decide, ?_⟩
  intro s h1 h2
  simp [parse_pdf_date, h1, h2]

/-- Witness for C3: the general invalid-format clause applied to a concrete
malformed string. -/
theorem parse_pdf_date_spec_witness :
    "zz" ≠ "" ∧ fourDigitYear (stripDPrefix "zz").data = none ∧
    parse_pdf_date "zz" = .error (.invalidFormat (stripDPrefix "zz")) :=
  ⟨by decide, by decide, parse_pdf_date_spec.2.2.2.2 "zz" (by decide) (by decide)⟩

set_option maxRecDepth 8192 in
/-- C5.  The mode-L path of the FlateDecode branch is unreachable for the
values the provider supplies, because the grayscale test routes the colour
space through resolve imported from pydoc: for the non-string PSLiteral
DeviceGray the test `"DeviceGray" in resolve(color_space)` is membership
in the pair (object, None) and is false, so the adapter selects RGB and
expects `width*height*3 = 300` bytes — the 90-byte payload is padded with
210 zero bytes (not 10) into an RGB raster and the 110-byte payload is
likewise padded with 190 zero bytes, never truncated to 100; had the
colour space been handed over as the Python string DeviceGray instead,
resolve would raise ImportError and the decode would abort.  The claimed
10 by 10 mode-L raster (expected length 100, last ten bytes zero) is never
produced. -/
theorem flate_gray_resolve_bug :
    _extract_image_data_from_pdf_image sampleDecoders (grayFlateImage (List.replicate 90 7)) =
      .ok ⟨"RGB", 10, 10, List.replicate 90 7 ++ List.replicate 210 0⟩ ∧
    _extract_image_data_from_pdf_image sampleDecoders (grayFlateImage (List.replicate 110 9)) =
      .ok ⟨"RGB", 10, 10, List.replicate 110 9 ++ List.replicate 190 0⟩ ∧
    _extract_image_data_from_pdf_image sampleDecoders
        (grayFlateStrImage (List.replicate 90 7)) =
      .error .resolveImportError :=
  ⟨by decide, by decide, by decide⟩

/-- C7 amended.  For a filter tag containing neither DCTDecode nor
FlateDecode the adapter hands the raw bytes to the generic auto-detecting
decoder and returns its outcome unchanged: a decode failure propagates the
generic decoder error as-is — no error naming the filter tag is
produced. -/
theorem unrecognized_filter_generic_decode (dec : Decoders) (img : PDFImage)
    (h1 : strContains img.filter "DCTDecode" = false)
    (h2 : strContains img.filter "FlateDecode" = false) :
    _extract_image_data_from_pdf_image dec img =
      (dec.autoDetect img.data).mapError CodecError.externalError := by
  simp [_extract_image_data_from_pdf_image, h1, h2]

/-- Witness for C7 amended: the JPXDecode sample image under the failing
decoders. -/
theorem unrecognized_filter_generic_decode_witness :
    strContains jpxImage.filter "DCTDecode" = false ∧
    strContains jpxImage.filter "FlateDecode" = false ∧
    _extract_image_data_from_pdf_image sampleDecoders jpxImage =
      (sampleDecoders.autoDetect jpxImage.data).mapError CodecError.externalError :=
  ⟨by decide, by decide,
   unrecognized_filter_generic_decode sampleDecoders jpxImage (by decide) (by decide)⟩

/-- C7 counterexample.  On a JPXDecode image whose bytes the generic decoder
rejects, the adapter fails with the generic-decoder message, and that error
does not name (or even mention) the filter tag — refuting the claim that a
failed auto-detection signals an error naming the tag. -/
theorem jpx_decode_failure_error_lacks_tag :
    _extract_image_data_from_pdf_image sampleDecoders jpxImage =
      .error (.externalError "cannot identify image file") ∧
    strContains "cannot identify image file" "JPXDecode" = false :=
  ⟨by decide, by decide⟩

/-- C10.  Both interval classifiers quantify over the channel list, so an
empty channel list passes vacuously: a character with no fill-colour
channels is classified white and a rectangle colour with no channels is
classified dark. -/
theorem empty_color_vacuous_classification (c : PChar) (r : PRect)
    (hc : c.non_stroking_color = []) (hr : r.non_stroking_color = []) :
    isWhiteChar c = true ∧ isDarkColor r.non_stroking_color = true := by
  simp [isWhiteChar, isDarkColor, hc, hr]

/-- Witness for C10: a colourless character and a colourless rectangle. -/
theorem empty_color_vacuous_classification_witness :
    PChar.non_stroking_color ⟨0, 0, 1, 1, "A", []⟩ = [] ∧
    PRect.non_stroking_color ⟨0, 0, 100, 20, true, []⟩ = [] ∧
    (isWhiteChar ⟨0, 0, 1, 1, "A", []⟩ = true ∧
      isDarkColor (PRect.non_stroking_color ⟨0, 0, 100, 20, true, []⟩) = true) :=
  ⟨rfl, rfl,
   empty_color_vacuous_classification ⟨0, 0, 1, 1, "A", []⟩ ⟨0, 0, 100, 20, true, []⟩ rfl rfl⟩

/-- The white-character loop yields nothing on a stream of white
characters, whatever the buffer: white characters only accumulate. -/
theorem whiteLoop_all_white (ws : List (Nat × PChar))
    (hw : ∀ x ∈ ws, isWhiteChar x.2 = true) :
    ∀ buf, whiteLoop ws buf = [] := by
  induction ws with
  | nil => intro buf; rfl
  | cons x rest ih =>
    intro buf
    obtain ⟨pn, c⟩ := x
    have hx : isWhiteChar c = true := hw (pn, c) (by simp)
    simp only [whiteLoop, hx, if_pos]
    exact ih (fun y hy => hw y (by simp [hy])) _

/-- Appending white characters at the end of the stream never changes the
emitted artifacts: a flush happens only at a non-white character. -/
theorem whiteLoop_append_all_white (l ws : List (Nat × PChar))
    (hw : ∀ x ∈ ws, isWhiteChar x.2 = true) :
    ∀ buf, whiteLoop (l ++ ws) buf = whiteLoop l buf := by
  induction l with
  | nil => intro buf; simpa using whiteLoop_all_white ws hw buf
  | cons x rest ih =>
    intro buf
    obtain ⟨pn, c⟩ := x
    by_cases hx : isWhiteChar c = true <;> simp [whiteLoop, hx, ih]

/-- C4 corrected.  The source loop of the White-Text Extractor ends without
flushing, so a trailing run of white characters is silently dropped:
appending only-white characters to the last page leaves the emitted
artifact sequence unchanged (in particular no final WHITE_TEXT artifact
carries the remaining buffer). -/
theorem white_text_trailing_whites_no_output (pages : List Page) (p : Page)
    (ws : List PChar) (hw : ∀ c ∈ ws, isWhiteChar c = true) :
    extract_white_text_from_pdf
        (pages ++ [⟨p.page_number, p.chars ++ ws, p.rects, p.images, p.extracted_text⟩]) =
      extract_white_text_from_pdf (pages ++ [p]) := by
  unfold extract_white_text_from_pdf pageCharStream
  rw [List.flatMap_append, List.flatMap_append]
  simp only [List.flatMap_cons, List.flatMap_nil, List.map_append, List.append_nil]
  rw [← List.append_assoc]
  refine whiteLoop_append_all_white _ _ ?_ _
  intro x hx
  simp only [List.mem_map] at hx
  obtain ⟨c, hc, rfl⟩ := hx
  exact hw c hc

/-- Witness for C4 amended: one white character appended to an empty last
page changes nothing. -/
theorem white_text_trailing_whites_no_output_witness :
    (∀ c ∈ [whiteCharA], isWhiteChar c = true) ∧
    extract_white_text_from_pdf
        ([] ++ [⟨(1 : Nat), [] ++ [whiteCharA], [], [], ""⟩]) =
      extract_white_text_from_pdf ([] ++ [(⟨1, [], [], [], ""⟩ : Page)]) :=
  ⟨by decide,
   white_text_trailing_whites_no_output [] ⟨1, [], [], [], ""⟩ [whiteCharA] (by decide)⟩

/-- C4 counterexample.  A stream consisting of a single white character
ends with a non-empty buffer, yet the extractor emits no artifact at all —
the claimed final WHITE_TEXT artifact does not exist. -/
theorem white_text_drops_trailing_buffer :
    isWhiteChar whiteCharA = true ∧
    extract_white_text_from_pdf [⟨1, [whiteCharA], [], [], ""⟩] = [] :=
  ⟨by decide, by decide⟩

/-- C2.  A page with one dark filled rectangle with bounds (0,0,100,20),
characters spelling REDACTED whose rounded boxes it contains, and one
character outside the bounds, yields exactly one FILLED_RECTANGLE artifact
whose text is exactly REDACTED — the outside character contributes
nothing. -/
theorem masked_rectangle_captures_exactly (n : Nat) (cs : List PChar) (outside : PChar)
    (hin : ∀ c ∈ cs, charInRoundedRect 0 0 100 20 c = true)
    (hout : charInRoundedRect 0 0 100 20 outside = false)
    (htext : String.join (cs.map PChar.text) = "REDACTED") :
    extract_text_inside_filled_rectangles [⟨n, cs ++ [outside], [redactionRect], [], ""⟩] =
      [mkExtractedArtifact n (.str "REDACTED") none "" .FILLED_RECTANGLE] := by
  have hcap : rectCapturedText (cs ++ [outside]) 0 0 100 20 = "REDACTED" := by
    unfold rectCapturedText
    rw [List.filter_append, List.filter_eq_self.mpr (by simpa using hin)]
    simp [hout, htext]
  simp [extract_text_inside_filled_rectangles, filledRectPages, rectLoop, redactionRect,
    show pyRound (0 : ℚ) = 0 from by decide, show pyRound (100 : ℚ) = 100 from by decide,
    show pyRound (20 : ℚ) = 20 from by decide, show isDarkColor [0] = true from by decide,
    hcap]

/-- Witness for C2: the concrete eight REDACTED characters and the outside
character. -/
theorem masked_rectangle_captures_exactly_witness :
    (∀ c ∈ redactedChars, charInRoundedRect 0 0 100 20 c = true) ∧
    charInRoundedRect 0 0 100 20 outsideChar = false ∧
    String.join (redactedChars.map PChar.text) = "REDACTED" ∧
    extract_text_inside_filled_rectangles
        [⟨1, redactedChars ++ [outsideChar], [redactionRect], [], ""⟩] =
      [mkExtractedArtifact 1 (.str "REDACTED") none "" .FILLED_RECTANGLE] :=
  ⟨by decide, by decide, by decide,
   masked_rectangle_captures_exactly 1 redactedChars outsideChar
     (by decide) (by decide) (by decide)⟩

/-- C6.  A zero-page document fails with the no-pages condition naming its
path, contributes nothing to a batch (the batch result over any sibling
list equals the result without it), and a concrete batch of the zero-page
document next to a valid document still yields exactly the valid record. -/
theorem zero_page_document_fails_and_isolated :
    (∀ (dec : Decoders) (r : Bool) (doc : PDFDocument), doc.pages = [] →
      process_pdf dec doc r = .error (.noPages doc.path) ∧
      ∀ docs, process_all_pdfs dec r (doc :: docs) = process_all_pdfs dec r docs) ∧
    process_all_pdfs sampleDecoders false [zeroPageDoc, validDoc] = [validRecord] := by
  constructor
  · intro dec r doc hp
    have hfail : process_pdf dec doc r = .error (.noPages doc.path) := by
      simp [process_pdf, hp]
    refine ⟨hfail, fun docs => ?_⟩
    simp [process_all_pdfs, run_in_thread, hfail, Except.toOption]
  · decide

/-- Witness for C6: the zero-page sample document. -/
theorem zero_page_document_fails_and_isolated_witness :
    zeroPageDoc.pages = [] ∧
    process_pdf sampleDecoders zeroPageDoc false = .error (.noPages zeroPageDoc.path) :=
  ⟨rfl, (zero_page_document_fails_and_isolated.1 sampleDecoders false zeroPageDoc rfl).1⟩

/-- C8 amended.  Date-parse failures are tolerated — processing continues
and the record is produced — but the fields track how far the try block
got: a creation-date failure leaves both date fields unset, while a
modification-date failure after a successful creation parse keeps the
parsed creation date and leaves only the modification date unset. -/
theorem date_parse_failures_tolerated (dec : Decoders) (doc : PDFDocument)
    (hne : doc.pages ≠ []) :
    ∃ rec, process_pdf dec doc false = .ok rec ∧
      (rec.creation_date, rec.modification_date) =
        datesFromMetadata doc.metadata.creation_date_str doc.metadata.mod_date_str ∧
      (∀ e, parse_pdf_date doc.metadata.creation_date_str = .error e →
        rec.creation_date = none ∧ rec.modification_date = none) ∧
      (∀ c e, parse_pdf_date doc.metadata.creation_date_str = .ok c →
        parse_pdf_date doc.metadata.mod_date_str = .error e →
        rec.creation_date = c ∧ rec.modification_date = none) := by
  have hpe : doc.pages.isEmpty = false := by
    cases hd : doc.pages with
    | nil => exact absurd hd hne
    | cons a l => rfl
  have hrec : process_pdf dec doc false = .ok ⟨doc.path, doc.metadata.author,
      doc.metadata.title, doc.metadata.subject, doc.metadata.keywords,
      doc.metadata.producer, doc.metadata.creator,
      (datesFromMetadata doc.metadata.creation_date_str doc.metadata.mod_date_str).1,
      (datesFromMetadata doc.metadata.creation_date_str doc.metadata.mod_date_str).2,
      check_for_signatures doc.pages,
      maskedFindings (extract_text_inside_filled_rectangles doc.pages)⟩ := by
    simp [process_pdf, hpe]
  refine ⟨_, hrec, rfl, ?_, ?_⟩
  · intro e he
    simp [datesFromMetadata, he]
  · intro c e hc hm
    simp [datesFromMetadata, hc, hm]

/-- Witness for C8 amended: the sample document with a valid creation date
and a malformed modification date. -/
theorem date_parse_failures_tolerated_witness :
    dateDoc.pages ≠ [] ∧
    (∃ rec, process_pdf sampleDecoders dateDoc false = .ok rec ∧
      (rec.creation_date, rec.modification_date) =
        datesFromMetadata dateDoc.metadata.creation_date_str dateDoc.metadata.mod_date_str ∧
      (∀ e, parse_pdf_date dateDoc.metadata.creation_date_str = .error e →
        rec.creation_date = none ∧ rec.modification_date = none) ∧
      (∀ c e, parse_pdf_date dateDoc.metadata.creation_date_str = .ok c →
        parse_pdf_date dateDoc.metadata.mod_date_str = .error e →
        rec.creation_date = c ∧ rec.modification_date = none)) :=
  ⟨by decide, date_parse_failures_tolerated sampleDecoders dateDoc (by decide)⟩

/-- C8 counterexample.  On the sample document the modification-date string
raises the invalid-format error, yet the produced record still carries the
parsed creation date — the claim that both fields are left unset whenever
either parse raises is false. -/
theorem date_doc_keeps_creation_date :
    parse_pdf_date dateDoc.metadata.mod_date_str = .error (.invalidFormat "not-a-date") ∧
    process_pdf sampleDecoders dateDoc false =
      .ok ⟨"dates.pdf", "", "", "", "", "", "", some ⟨2023, 6, 15, 12, 0, 0, 0⟩, none,
        false, []⟩ :=
  ⟨by decide, by decide⟩

/-- The masked-findings loop is the filter-then-map over the artifact
stream. -/
theorem maskedFindings_eq_filter_map (arts : List ExtractedArtifact) :
    maskedFindings arts = (arts.filter fun a => textTruthy a.text).map
      fun a => from_extracted_artifact a (findItemOfText a.text) "filled_rectangle" := by
  induction arts with
  | nil => rfl
  | cons a rest ih =>
    by_cases h : textTruthy a.text
    · simp [maskedFindings, List.filter_cons, h, ih]
    · simp [maskedFindings, List.filter_cons, h, ih]

/-- The image-findings loop is the flatMap restatement. -/
theorem imagePiiFindings_eq_spec (arts : List ExtractedArtifact) :
    imagePiiFindings arts = specImagePiiFindings arts := by
  induction arts with
  | nil => rfl
  | cons a rest ih =>
    simp only [imagePiiFindings, specImagePiiFindings, List.flatMap_cons] at *
    rw [ih]

/-- A page text blob with its trailing newline is never empty. -/
theorem text_with_newline_truthy (s : String) :
    textTruthy (TextV.str (s ++ "\n")) = true := by
  have hd : (s ++ "\n").data = s.data ++ ['\n'] := String.data_append s "\n"
  simp [textTruthy, bne_iff_ne, String.ext_iff, hd]

/-- The plain-text findings loop over the per-page artifacts is the
page-ordered flatMap restatement. -/
theorem textPiiFindings_eq_spec (pages : List Page) :
    textPiiFindings (extract_text_from_pdf pages) = specTextPiiFindings pages := by
  induction pages with
  | nil => rfl
  | cons p ps ih =>
    simp only [extract_text_from_pdf, List.map_cons, textPiiFindings,
      specTextPiiFindings, List.flatMap_cons] at *
    rw [ih]
    simp [mkExtractedArtifact, from_extracted_artifact, stringOfText,
      text_with_newline_truthy]

/-- Shape of a successful per-page image-artifact extraction: one artifact
per image, in image order, carrying the page number and the OCR text. -/
theorem pageImageArtifacts_ok_shape (dec : Decoders) (path : String) (pn : Nat)
    (ims : List PDFImage) (arts : List ExtractedArtifact)
    (h : pageImageArtifacts dec path pn ims = .ok arts) :
    arts.map (fun a => (a.page_number, a.text)) =
      ims.map fun im => (pn, ocrTextValue im.ocr_lines) := by
  induction ims generalizing arts with
  | nil =>
    simp only [pageImageArtifacts, Except.ok.injEq] at h
    subst h
    rfl
  | cons im rest ih =>
    unfold pageImageArtifacts at h
    cases hd : _extract_image_data_from_pdf_image dec im with
    | error e => rw [hd] at h; exact absurd h (by simp)
    | ok raster =>
      rw [hd] at h
      cases hr : pageImageArtifacts dec path pn rest with
      | error e => rw [hr] at h; exact absurd h (by simp)
      | ok rest2 =>
        rw [hr] at h
        simp only [Except.ok.injEq] at h
        subst h
        simp [mkExtractedArtifact, ih rest2 hr]

/-- Shape of a successful whole-document image-artifact extraction: page
order, then image order within each page. -/
theorem extract_images_ok_shape (dec : Decoders) (path : String)
    (pages : List Page) (arts : List ExtractedArtifact)
    (h : extract_images_from_pdf dec path pages = .ok arts) :
    arts.map (fun a => (a.page_number, a.text)) =
      pages.flatMap fun p => p.images.map fun im =>
        (p.page_number, ocrTextValue im.ocr_lines) := by
  induction pages generalizing arts with
  | nil =>
    simp only [extract_images_from_pdf, Except.ok.injEq] at h
    subst h
    rfl
  | cons p ps ih =>
    unfold extract_images_from_pdf at h
    cases h1 : pageImageArtifacts dec path p.page_number p.images with
    | error e => rw [h1] at h; exact absurd h (by simp)
    | ok arts1 =>
      rw [h1] at h
      cases h2 : extract_images_from_pdf dec path ps with
      | error e => rw [h2] at h; exact absurd h (by simp)
      | ok arts2 =>
        rw [h2] at h
        simp only [Except.ok.injEq] at h
        subst h
        simp [List.flatMap_cons, List.map_append,
          pageImageArtifacts_ok_shape dec path p.page_number p.images arts1 h1,
          ih arts2 h2]

/-- C9.  On any successful run with scanning enabled, the findings are the
masked-rectangle findings (in extraction order), then the plain-text PII
findings (page order, registry order, match order), then the image PII
findings over the image artifacts (page order, image order within a page,
registry order, match order); with scanning disabled the findings are the
masked-rectangle findings alone. -/
theorem process_pdf_findings_order (dec : Decoders) (doc : PDFDocument) (rec : ScannedPDF) :
    (process_pdf dec doc true = .ok rec →
      ∃ imageArts,
        extract_images_from_pdf dec doc.path doc.pages = .ok imageArts ∧
        imageArts.map (fun a => (a.page_number, a.text)) =
          (doc.pages.flatMap fun p => p.images.map fun im =>
            (p.page_number, ocrTextValue im.ocr_lines)) ∧
        rec.findings = specMaskedFindings doc.pages ++ specTextPiiFindings doc.pages ++
          specImagePiiFindings imageArts) ∧
    (process_pdf dec doc false = .ok rec → rec.findings = specMaskedFindings doc.pages) := by
  constructor
  · intro h
    unfold process_pdf at h
    by_cases hp : doc.pages.isEmpty = true
    · rw [if_pos hp] at h
      exact absurd h (by simp)
    · rw [if_neg hp] at h
      cases hi : extract_images_from_pdf dec doc.path doc.pages with
      | error e =>
        rw [hi] at h
        simp at h
      | ok imageArts =>
        rw [hi] at h
        simp only [if_true, reduceIte, Except.ok.injEq] at h
        refine ⟨imageArts, rfl,
          extract_images_ok_shape dec doc.path doc.pages imageArts hi, ?_⟩
        rw [← h]
        simp [maskedFindings_eq_filter_map, specMaskedFindings,
          textPiiFindings_eq_spec, imagePiiFindings_eq_spec]
  · intro h
    unfold process_pdf at h
    by_cases hp : doc.pages.isEmpty = true
    · rw [if_pos hp] at h
      exact absurd h (by simp)
    · rw [if_neg hp] at h
      simp only [Bool.false_eq_true, if_false, reduceIte, Except.ok.injEq] at h
      rw [← h]
      simp [maskedFindings_eq_filter_map, specMaskedFindings]

/-- Witness for C9: a successful scan of the valid sample document. -/
theorem process_pdf_findings_order_witness :
    process_pdf sampleDecoders validDoc true = .ok validRecordScan ∧
    (∃ imageArts,
      extract_images_from_pdf sampleDecoders validDoc.path validDoc.pages = .ok imageArts ∧
      imageArts.map (fun a => (a.page_number, a.text)) =
        (validDoc.pages.flatMap fun p => p.images.map fun im =>
          (p.page_number, ocrTextValue im.ocr_lines)) ∧
      validRecordScan.findings = specMaskedFindings validDoc.pages ++
        specTextPiiFindings validDoc.pages ++ specImagePiiFindings imageArts) :=
  ⟨by decide,
   (process_pdf_findings_order sampleDecoders validDoc validRecordScan).1 (by decide)⟩

end PdfScraper
